import Mathlib

/-!
Shallow embedding of the DMV tax calculator and declaration exporter from
`src/dmv_gui.js`: the bracket rate tables, the age-in-months computation, the
year-dependent age-coefficient schedule, the per-vehicle tax computation used
by `prepocitatVsetky`, and the client-side XML export path of `exportXML`.
Monetary amounts and rates are modelled as rationals (the source works in JS
numbers with no intermediate rounding); JS `NaN` propagation in the date path
is modelled with `Option`. The JS string primitives the source calls
(`split('.')`, `startsWith('O')`, `ToNumber` coercion) are modelled over
`List Char` so that every definition evaluates inside the kernel.
-/

/-- A rate bracket `(od, do]` from the source tables; the upper bound `do`
is a Lean keyword, so it is named `do'` here, with `none` standing for the
source's `Infinity`. -/
structure Pasmo where
  od : ℚ
  do' : Option ℚ
  sadzba : ℚ

/-- Table `SADZBY_M1` from the source: displacement brackets (cm³) for `M1`/`L`. -/
def SADZBY_M1 : List Pasmo :=
  [⟨0, some 150, 50⟩, ⟨150, some 900, 62⟩,
   ⟨900, some 1200, 80⟩, ⟨1200, some 1500, 115⟩,
   ⟨1500, some 2000, 148⟩, ⟨2000, some 3000, 180⟩,
   ⟨3000, none, 218⟩]

/-- Table `SADZBY_O` from the source: direct lookup by trailer category code. -/
def SADZBY_O (kat : String) : Option ℚ :=
  if kat = "O1" then some 50
  else if kat = "O2" then some 115
  else if kat = "O3" then some 180
  else if kat = "O4" then some 295
  else none

/-- Table `SADZBY_N1` from the source: mass brackets (metric tons). -/
def SADZBY_N1 : List Pasmo :=
  [⟨0, some 2, 115⟩, ⟨2, some 4, 148⟩,
   ⟨4, some 6, 180⟩, ⟨6, some 8, 218⟩,
   ⟨8, some 10, 253⟩, ⟨10, some 12, 295⟩]

/-- The loop condition `objem > s.od && objem <= s.do` of the source's
bracket scan; a `none` upper bound (`Infinity`) is satisfied by any value. -/
def vPasme (p : Pasmo) (v : ℚ) : Bool :=
  decide (p.od < v) && (match p.do' with | none => true | some d => decide (v ≤ d))

/-- The source's `for`-loop with early `return` over a bracket table. -/
def findSadzba : List Pasmo → ℚ → Option ℚ
  | [], _ => none
  | p :: rest, v => if vPasme p v then some p.sadzba else findSadzba rest v

/-- The source's `kat.startsWith('O')`: the category string begins with the
character `O`. Modelled over the character list of the string. -/
def zacinaNaO (kat : String) : Bool :=
  match kat.data with
  | c :: _ => c == 'O'
  | [] => false

/-- Function `getZakladnaSadzba(kat, objem, hmotnost)` from the source: `M1`/`L` scan
`SADZBY_M1` over the displacement and fall back to `218`; categories starting
with `O` use the `SADZBY_O` lookup with fallback `50` (`SADZBY_O[kat] || 50`);
every other category divides the mass by `1000` and scans `SADZBY_N1` with
fallback `115`. -/
def getZakladnaSadzba (kat : String) (objem hmotnost : ℚ) : ℚ :=
  if kat = "M1" ∨ kat = "L" then
    (findSadzba SADZBY_M1 objem).getD 218
  else if zacinaNaO kat then
    (SADZBY_O kat).getD 50
  else
    (findSadzba SADZBY_N1 (hmotnost / 1000)).getD 115

/-- An age-coefficient bracket `[od, do)` in months; a `none` upper bound
models the source's `Infinity`. -/
structure Uprava where
  od : ℤ
  do' : Option ℤ
  koef : ℚ

/-- Table `UPRAVA_2024` from the source: the pre-2025 age-coefficient schedule. -/
def UPRAVA_2024 : List Uprava :=
  [⟨0, some 36, 0.75⟩, ⟨36, some 72, 0.80⟩,
   ⟨72, some 108, 0.85⟩, ⟨108, some 144, 1.00⟩,
   ⟨144, some 156, 1.10⟩, ⟨156, none, 1.20⟩]

/-- Table `UPRAVA_2025` from the source: the schedule for tax years from 2025. -/
def UPRAVA_2025 : List Uprava :=
  [⟨0, some 36, 1.00⟩, ⟨36, some 72, 1.10⟩,
   ⟨72, some 108, 1.20⟩, ⟨108, some 144, 1.30⟩,
   ⟨144, some 180, 1.40⟩, ⟨180, none, 1.50⟩]

/-- The loop condition `vek >= u.od && vek < u.do` of `getKoefVeku`. -/
def vekVPasme (u : Uprava) (vek : ℤ) : Bool :=
  decide (u.od ≤ vek) && (match u.do' with | none => true | some d => decide (vek < d))

/-- The source's coefficient scan with early `return`. -/
def findKoef : List Uprava → ℤ → Option ℚ
  | [], _ => none
  | u :: rest, vek => if vekVPasme u vek then some u.koef else findKoef rest vek

/-- Function `getKoefVeku(vek)` from the source, with the global tax-year input field
passed explicitly: picks `UPRAVA_2025` when `rok >= 2025` else `UPRAVA_2024`,
scans it, and falls back to the last entry's coefficient
(`upravy[upravy.length - 1].koef`). -/
def getKoefVeku (vek : ℤ) (rok : ℤ) : ℚ :=
  let upravy := if 2025 ≤ rok then UPRAVA_2025 else UPRAVA_2024
  (findKoef upravy vek).getD ((upravy.getLastD ⟨0, none, 0⟩).koef)

/-- The JS `split('.')` that `vypocitajVek` applies to the date string,
modelled on the character list: every occurrence of `'.'` separates
components, and the empty component is kept, exactly as in JS. -/
def splitNaBodky : List Char → List (List Char)
  | [] => [[]]
  | c :: rest =>
    if c = '.' then [] :: splitNaBodky rest
    else
      match splitNaBodky rest with
      | h :: t => (c :: h) :: t
      | [] => [[c]]

/-- A decimal digit test for the `ToNumber` model. -/
def jeCislica (c : Char) : Bool := decide ('0' ≤ c) && decide (c ≤ '9')

/-- Value of a decimal digit list, most significant first. -/
def hodnotaCislic (l : List Char) : ℤ :=
  l.foldl (fun acc c => acc * 10 + ((c.toNat : ℤ) - ('0'.toNat : ℤ))) 0

/-- The white space and line terminators that JS `ToNumber` trims: TAB, LF,
VT, FF, CR, SP, NBSP, the Unicode `Zs` code points, LS, PS and ZWNBSP. -/
def jsWhitespace (c : Char) : Bool :=
  [0x9, 0xA, 0xB, 0xC, 0xD, 0x20, 0xA0, 0x1680, 0x2000, 0x2001, 0x2002,
   0x2003, 0x2004, 0x2005, 0x2006, 0x2007, 0x2008, 0x2009, 0x200A, 0x2028,
   0x2029, 0x202F, 0x205F, 0x3000, 0xFEFF].contains c.toNat

/-- Strips leading and trailing JS white space. -/
def jsTrim (l : List Char) : List Char :=
  ((l.dropWhile jsWhitespace).reverse.dropWhile jsWhitespace).reverse

/-- A hexadecimal digit test for the `0x` literal form. -/
def jeHexCislica (c : Char) : Bool :=
  jeCislica c || (decide ('a' ≤ c) && decide (c ≤ 'f')) ||
    (decide ('A' ≤ c) && decide (c ≤ 'F'))

/-- An octal digit test for the `0o` literal form. -/
def jeOsmickovaCislica (c : Char) : Bool := decide ('0' ≤ c) && decide (c ≤ '7')

/-- A binary digit test for the `0b` literal form. -/
def jeDvojkovaCislica (c : Char) : Bool := c == '0' || c == '1'

/-- Value of a digit list in the given base, with hex letters in either
case. -/
def hodnotaVZaklade (zaklad : ℤ) (l : List Char) : ℤ :=
  l.foldl (fun acc c =>
    acc * zaklad +
      (if jeCislica c then (c.toNat : ℤ) - ('0'.toNat : ℤ)
       else if decide ('a' ≤ c) && decide (c ≤ 'f') then
         (c.toNat : ℤ) - ('a'.toNat : ℤ) + 10
       else (c.toNat : ℤ) - ('A'.toNat : ℤ) + 10)) 0

/-- The dot-free decimal numeral forms of the JS `ToNumber` grammar: one or
more digits followed by an optional exponent part (`12`, `12e3`, `12E-2`),
with the exact rational value. A decimal point cannot occur in a component
of a dot-split date string. -/
def jsDesiatkove (l : List Char) : Option ℚ :=
  match l.span jeCislica with
  | (cislice, []) =>
    if cislice = [] then none else some ((hodnotaCislic cislice : ℤ) : ℚ)
  | (cislice, e :: zvysok) =>
    if cislice = [] then none
    else if e == 'e' || e == 'E' then
      match zvysok with
      | '+' :: exponent =>
        if exponent ≠ [] ∧ exponent.all jeCislica then
          some (((hodnotaCislic cislice : ℤ) : ℚ) *
            (10 : ℚ) ^ (hodnotaCislic exponent).toNat)
        else none
      | '-' :: exponent =>
        if exponent ≠ [] ∧ exponent.all jeCislica then
          some (((hodnotaCislic cislice : ℤ) : ℚ) /
            (10 : ℚ) ^ (hodnotaCislic exponent).toNat)
        else none
      | exponent =>
        if exponent ≠ [] ∧ exponent.all jeCislica then
          some (((hodnotaCislic cislice : ℤ) : ℚ) *
            (10 : ℚ) ^ (hodnotaCislic exponent).toNat)
        else none
    else none

/-- An unsigned numeric literal: `Infinity` or a decimal numeral. The
infinite value is collapsed to `none` — see `jsToNumber`. -/
def jsBezZnamienka (l : List Char) : Option ℚ :=
  if l = "Infinity".data then none
  else jsDesiatkove l

/-- Model of the JS `ToNumber` coercion that `new Date(y, m, d)` applies to
the string components that `vypocitajVek` passes it, restricted to the
finite outcomes the `Date` constructor can use: surrounding white space is
trimmed, a white-space-only string is `0`, the `0x`/`0o`/`0b` integer forms
and optionally signed decimal numerals (with exponent) take their exact
rational value, and every string outside the numeric grammar is `NaN`
(`none`). The values `±Infinity`, which `ToNumber` produces for
`"Infinity"` forms and which make the constructed `Date` invalid exactly as
`NaN` does, are collapsed to `none` as well. The model computes exact
rational values where a JS engine rounds to binary64; the theorems below
instantiate it only at small integer components, where the two agree. -/
def jsToNumber (l : List Char) : Option ℚ :=
  match jsTrim l with
  | [] => some 0
  | '0' :: 'x' :: zvysok =>
    if zvysok ≠ [] ∧ zvysok.all jeHexCislica then
      some ((hodnotaVZaklade 16 zvysok : ℤ) : ℚ)
    else none
  | '0' :: 'X' :: zvysok =>
    if zvysok ≠ [] ∧ zvysok.all jeHexCislica then
      some ((hodnotaVZaklade 16 zvysok : ℤ) : ℚ)
    else none
  | '0' :: 'o' :: zvysok =>
    if zvysok ≠ [] ∧ zvysok.all jeOsmickovaCislica then
      some ((hodnotaVZaklade 8 zvysok : ℤ) : ℚ)
    else none
  | '0' :: 'O' :: zvysok =>
    if zvysok ≠ [] ∧ zvysok.all jeOsmickovaCislica then
      some ((hodnotaVZaklade 8 zvysok : ℤ) : ℚ)
    else none
  | '0' :: 'b' :: zvysok =>
    if zvysok ≠ [] ∧ zvysok.all jeDvojkovaCislica then
      some ((hodnotaVZaklade 2 zvysok : ℤ) : ℚ)
    else none
  | '0' :: 'B' :: zvysok =>
    if zvysok ≠ [] ∧ zvysok.all jeDvojkovaCislica then
      some ((hodnotaVZaklade 2 zvysok : ℤ) : ℚ)
    else none
  | '+' :: zvysok => jsBezZnamienka zvysok
  | '-' :: zvysok => (jsBezZnamienka zvysok).map (fun q => -q)
  | t => jsBezZnamienka t

/-- JS `ToInteger`, truncation toward zero, which `MakeDay` applies to each
argument of the `Date` constructor. -/
def jsToInteger (q : ℚ) : ℤ := if 0 ≤ q then ⌊q⌋ else -⌊-q⌋

/-- The two-digit-year rule of the JS `Date(year, month, day)` constructor:
a year argument from 0 to 99 is taken as 1900 + year. -/
def jsYearAdjust (y : ℤ) : ℤ := if 0 ≤ y ∧ y ≤ 99 then 1900 + y else y

/-- The proleptic Gregorian leap-year rule JS dates use. -/
def priestupnyRok (y : ℤ) : Bool :=
  (y % 4 == 0) && (!(y % 100 == 0) || (y % 400 == 0))

/-- Days in the 0-based month `mo` (the JS `Date` month index, 0..11) of
year `y`. -/
def dniVMesiaci (y mo : ℤ) : ℤ :=
  if mo = 1 then (if priestupnyRok y then 29 else 28)
  else if mo = 3 ∨ mo = 5 ∨ mo = 8 ∨ mo = 10 then 30
  else 31

/-- Day-overflow normalisation of the JS `Date` constructor: starting from a
year and a 0-based month in 0..11, a day above the month's length carries
into the following months and a day below 1 borrows from the preceding
ones, exactly as `MakeDay` resolves the date (`Date(2021, 3, 31)` is May 1).
Each step moves the day at least 28 toward range, so the fuel passed by
`jsDateYMD` always suffices. -/
def normDen : ℕ → ℤ → ℤ → ℤ → ℤ × ℤ
  | 0, y, mo, _ => (y, mo)
  | fuel + 1, y, mo, d =>
    if d < 1 then
      let y' := if mo = 0 then y - 1 else y
      let mo' := if mo = 0 then 11 else mo - 1
      normDen fuel y' mo' (d + dniVMesiaci y' mo')
    else if dniVMesiaci y mo < d then
      normDen fuel (if mo = 11 then y + 1 else y) (if mo = 11 then 0 else mo + 1)
        (d - dniVMesiaci y mo)
    else (y, mo)

/-- The (`getFullYear()`, `getMonth()`) pair of `new Date(y, m, d)` at
finite arguments: each argument is truncated (`ToInteger`), the two-digit
year rule applies, the month index is folded into the year by floor
division (the Euclidean `/` and `%` of `ℤ` agree with floor division for
the positive divisor 12), and the day is normalised across month
boundaries. The JS time-value clamp (±8.64e15 ms, about ±273790 years) and
the local-time interpretation of the constructor are not modelled; they
cannot affect the reported year and month of any date within ±250000
years, the range over which the theorems below quantify. -/
def jsDateYMD (yq mq dq : ℚ) : ℤ × ℤ :=
  let y := jsToInteger yq
  let mo := jsToInteger mq
  let d := jsToInteger dq
  let t := jsYearAdjust y * 12 + mo
  normDen (d.natAbs + 24) (t / 12) (t % 12) d

/-- The body of `vypocitajVek` after `datumStr.split('.')`, with the global
tax-year field passed explicitly. A list of other than three components
yields 0; a `NaN` (or infinite) component makes the constructed `Date`
invalid, so `getFullYear()`/`getMonth()` are `NaN` and `Math.max(0, NaN)`
is `NaN` (`none`). Otherwise the result is
`max 0 ((koniec.year - ev.year) * 12 + (koniec.month - ev.month))` with
`koniec = Date(rok, 11, 31)`, i.e. December 31 of the tax year. -/
def vypocitajVekParts (parts : List (List Char)) (rok : ℤ) : Option ℤ :=
  match parts with
  | [ds, ms, ys] =>
    match jsToNumber ds, jsToNumber ms, jsToNumber ys with
    | some dq, some mq, some yq =>
      let ev := jsDateYMD yq (mq - 1) dq
      let koniec := jsDateYMD (rok : ℚ) 11 31
      some (max 0 ((koniec.1 - ev.1) * 12 + (koniec.2 - ev.2)))
    | _, _, _ => none
  | _ => some 0

/-- Function `vypocitajVek(datumStr)` from the source: a missing (empty) date string
yields 0, otherwise the string is split on `'.'` and handled by
`vypocitajVekParts`. -/
def vypocitajVek (datumStr : String) (rok : ℤ) : Option ℤ :=
  if datumStr = "" then some 0
  else vypocitajVekParts (splitNaBodky datumStr.data) rok

/-- A vehicle record as stored in the source's `vozidla` array: the input
fields written by `ulozitVozidlo` and the derived fields (`zakladnaSadzba`,
`sadzba`, `dan`, `vek`) recomputed by `prepocitatVsetky`. The age `vek` is a
JS number that can be `NaN` (`none`) for a three-part non-numeric date. -/
structure Vozidlo where
  evc : String
  kategoria : String
  datum : String
  datumVzniku : String
  objem : ℚ
  hmotnost : ℚ
  mesiace : ℤ
  hybrid : Bool
  plyn : Bool
  kombi : Bool
  zakladnaSadzba : ℚ
  sadzba : ℚ
  dan : ℚ
  vek : Option ℤ

/-- The JS test `vek > 0`: false for `NaN`. -/
def vekKladny (vek : Option ℤ) : Bool :=
  match vek with
  | some n => decide (0 < n)
  | none => false

/-- The per-vehicle body of `prepocitatVsetky` (the same arithmetic as
`prepocitat`): base rate, age, conditional age coefficient for non-`O`
categories, the eco halving for `hybrid || plyn`, the combined-transport
halving for `kombi`, and the monthly proration
`dan = (sadzba / 12) * mesiace`. Only the derived fields are written. -/
def prepocitatVozidlo (v : Vozidlo) (rok : ℤ) : Vozidlo :=
  let zakladna := getZakladnaSadzba v.kategoria v.objem v.hmotnost
  let vek := vypocitajVek v.datum rok
  let sadzba0 :=
    if vekKladny vek && !(zacinaNaO v.kategoria) then
      zakladna * getKoefVeku (vek.getD 0) rok
    else zakladna
  let sadzba1 := if v.hybrid || v.plyn then sadzba0 * 0.5 else sadzba0
  let sadzba2 := if v.kombi then sadzba1 * 0.5 else sadzba1
  { v with
    zakladnaSadzba := zakladna
    sadzba := sadzba2
    vek := vek
    dan := sadzba2 / 12 * (v.mesiace : ℚ) }

/-- Function `prepocitatVsetky()` from the source, restricted to its data effect:
recompute the derived fields of every record in place (the `refreshTable` and
`log` calls are presentation only). -/
def prepocitatVsetky (vozidla : List Vozidlo) (rok : ℤ) : List Vozidlo :=
  vozidla.map (fun v => prepocitatVozidlo v rok)

/-- The company header fields serialised by the client-side `exportXML`. -/
structure Spolocnost where
  dic : String
  nazov : String
  ulica : String
  cislo : String
  psc : String
  obec : String

/-- The export guard failures: `'Zadajte DIČ'` for a missing tax-id and
`'Pridajte vozidlo'` for an empty fleet. -/
inductive ValidationError where
  | chybaDic : ValidationError
  | chybaVozidla : ValidationError
deriving DecidableEq

/-- The `toFixed(2)` formatting used for the exported totals, modelled for
the non-negative amounts the tax computation produces: round half up to a
hundredth and print with exactly two decimals. -/
def toFixed2 (q : ℚ) : String :=
  let c : ℤ := ⌊q * 100 + 1 / 2⌋
  toString (c.ediv 100) ++ "." ++
    (if c.emod 100 < 10 then "0" else "") ++ toString (c.emod 100)

/-- The `<hlavicka>` part of the client-side XML template of `exportXML`,
character for character, with the free-text company fields interpolated raw
exactly as the source does. -/
def exportHlavicka (sp : Spolocnost) (rok : ℤ) : String :=
  "<?xml version=\"1.0\" encoding=\"UTF-8\"?>\n<dokument>\n<hlavicka>\n<fo>0</fo><po>1</po><zahranicna>0</zahranicna>\n<dic>"
    ++ sp.dic ++
    "</dic>\n<typDP><rdp>1</rdp><odp>0</odp><ddp>0</ddp></typDP>\n<zdanovacieObdobie><od>1.1."
    ++ toString rok ++ "</od><do>31.12." ++ toString rok ++
    "</do></zdanovacieObdobie>\n<poObchodneMeno><riadok>" ++ sp.nazov ++
    "</riadok></poObchodneMeno>\n<sidlo>\n<ulica>" ++ sp.ulica ++
    "</ulica>\n<cislo>" ++ sp.cislo ++ "</cislo>\n<psc>" ++ sp.psc ++
    "</psc>\n<obec>" ++ sp.obec ++
    "</obec>\n<stat>Slovenská republika</stat>\n</sidlo>\n</hlavicka>"

/-- The `<telo>` part of the client-side XML template: the vehicle count in
`<r35>` and `celkovaDan = vozidla.reduce((sum, v) => sum + (v.dan || 0), 0)`
formatted once with `toFixed(2)` and interpolated into `<r36>`, `<r38>` and
`<r40>`. -/
def exportTelo (vozidla : List Vozidlo) : String :=
  let celkovaDan := List.foldl (fun s v => s + v.dan) 0 vozidla
  let tot := toFixed2 celkovaDan
  "<telo>\n<r35>" ++ toString vozidla.length ++ "</r35>\n<r36>" ++ tot ++
    "</r36>\n<r38>" ++ tot ++ "</r38>\n<r40>" ++ tot ++ "</r40>\n</telo>"

/-- Function `exportXML()` from the source, restricted to its data effect on the
client-side (offline) path: the two guards (`if (!dic)` and
`if (vozidla.length === 0)`) abort with no document, otherwise the function
produces the download file name `dmv_<dic>_<rok>.xml` and the XML document
assembled from the header and body templates. The `USE_API` branch delegates
the same payload to the excluded server collaborator after the same guards. -/
def exportXML (sp : Spolocnost) (vozidla : List Vozidlo) (rok : ℤ) :
    Except ValidationError (String × String) :=
  if sp.dic = "" then .error .chybaDic
  else if vozidla.length = 0 then .error .chybaVozidla
  else
    .ok ("dmv_" ++ sp.dic ++ "_" ++ toString rok ++ ".xml",
         exportHlavicka sp rok ++ "\n" ++ exportTelo vozidla ++ "\n</dokument>")

/-- The document text of a successful export, the empty string otherwise. -/
def exOutput (e : Except ValidationError (String × String)) : String :=
  match e with
  | .ok p => p.2
  | .error _ => ""

/-- Returns `true` when the pattern occurs contiguously inside the text. -/
def obsahuje (vzor : List Char) : List Char → Bool
  | [] => vzor == []
  | c :: rest => (((c :: rest).take vzor.length) == vzor) || obsahuje vzor rest

/-- The spec's volume-based rate table, written as the stated `(od, do]`
bracket cascade: `(0,150]→50, (150,900]→62, (900,1200]→80, (1200,1500]→115,
(1500,2000]→148, (2000,3000]→180, (3000,∞)→218`, with the documented
fallback `218` for a displacement matching no bracket. -/
def sadzbaM1Spec (v : ℚ) : ℚ :=
  if v ≤ 0 then 218
  else if v ≤ 150 then 50
  else if v ≤ 900 then 62
  else if v ≤ 1200 then 80
  else if v ≤ 1500 then 115
  else if v ≤ 2000 then 148
  else if v ≤ 3000 then 180
  else 218

/-- The spec's mass-based rate rule: mass converted to metric tons, the same
`(od, do]` bracket rule over `(0,2]→115, (2,4]→148, (4,6]→180, (6,8]→218,
(8,10]→253, (10,12]→295`, and the fallback `115` for values above the last
bound or matching no bracket. The argument is the raw mass in kg. -/
def sadzbaN1Spec (hmotnost : ℚ) : ℚ :=
  if hmotnost / 1000 ≤ 0 then 115
  else if hmotnost / 1000 ≤ 2 then 115
  else if hmotnost / 1000 ≤ 4 then 148
  else if hmotnost / 1000 ≤ 6 then 180
  else if hmotnost / 1000 ≤ 8 then 218
  else if hmotnost / 1000 ≤ 10 then 253
  else if hmotnost / 1000 ≤ 12 then 295
  else 115

/-- The spec's pre-cutoff age-coefficient schedule, written as the stated
half-open-below cascade: `[0,36)→0.75, [36,72)→0.80, [72,108)→0.85,
[108,144)→1.00, [144,156)→1.10, [156,∞)→1.20`. -/
def koef2024Spec (vek : ℤ) : ℚ :=
  if vek < 36 then 0.75
  else if vek < 72 then 0.80
  else if vek < 108 then 0.85
  else if vek < 144 then 1.00
  else if vek < 156 then 1.10
  else 1.20

/-- The spec's cutoff-and-later age-coefficient schedule:
`[0,36)→1.00, [36,72)→1.10, [72,108)→1.20, [108,144)→1.30, [144,180)→1.40,
[180,∞)→1.50`. -/
def koef2025Spec (vek : ℤ) : ℚ :=
  if vek < 36 then 1.00
  else if vek < 72 then 1.10
  else if vek < 108 then 1.20
  else if vek < 144 then 1.30
  else if vek < 180 then 1.40
  else 1.50

/-- The claim's pre-discount rate: the base rate multiplied by the age
coefficient exactly when the category is not a trailer (`O*`) category and
the age is positive, the base rate alone otherwise. -/
def sadzbaPredZlavami (v : Vozidlo) (rok : ℤ) : ℚ :=
  let zakladna := getZakladnaSadzba v.kategoria v.objem v.hmotnost
  let vek := vypocitajVek v.datum rok
  if vekKladny vek && !(zacinaNaO v.kategoria) then
    zakladna * getKoefVeku (vek.getD 0) rok
  else zakladna

/-- The claim's adjusted rate: the pre-discount rate halved when the eco
(hybrid-or-gas) flag is set and halved again, independently, when the
combined-transport flag is set. -/
def adjustedRateSpec (v : Vozidlo) (rok : ℤ) : ℚ :=
  sadzbaPredZlavami v rok * (if v.hybrid ∨ v.plyn then 0.5 else 1) *
    (if v.kombi then 0.5 else 1)

theorem findSadzbaM1_spec (v : ℚ) :
    (findSadzba SADZBY_M1 v).getD 218 = sadzbaM1Spec v := by
  simp only [SADZBY_M1, findSadzba, vPasme, Bool.and_eq_true, Bool.and_true,
    decide_eq_true_eq, sadzbaM1Spec]
  rcases le_or_lt v 0 with h0 | h0
  · rw [if_neg (fun hc : 0 < v ∧ v ≤ 150 => absurd hc.1 (not_lt.mpr h0)),
      if_neg (fun hc : 150 < v ∧ v ≤ 900 => by linarith [hc.1]),
      if_neg (fun hc : 900 < v ∧ v ≤ 1200 => by linarith [hc.1]),
      if_neg (fun hc : 1200 < v ∧ v ≤ 1500 => by linarith [hc.1]),
      if_neg (fun hc : 1500 < v ∧ v ≤ 2000 => by linarith [hc.1]),
      if_neg (fun hc : 2000 < v ∧ v ≤ 3000 => by linarith [hc.1]),
      if_neg (by push_neg; linarith : ¬ 3000 < v),
      if_pos h0]
    rfl
  · rcases le_or_lt v 150 with h1 | h1
    · rw [if_pos ⟨h0, h1⟩, if_neg (not_le.mpr h0), if_pos h1]
      rfl
    · rcases le_or_lt v 900 with h2 | h2
      · rw [if_neg (fun hc : 0 < v ∧ v ≤ 150 => by linarith [hc.2]),
          if_pos ⟨h1, h2⟩, if_neg (not_le.mpr h0), if_neg (not_le.mpr h1), if_pos h2]
        rfl
      · rcases le_or_lt v 1200 with h3 | h3
        · rw [if_neg (fun hc : 0 < v ∧ v ≤ 150 => by linarith [hc.2]),
            if_neg (fun hc : 150 < v ∧ v ≤ 900 => by linarith [hc.2]),
            if_pos ⟨h2, h3⟩, if_neg (not_le.mpr h0), if_neg (not_le.mpr h1),
            if_neg (not_le.mpr h2), if_pos h3]
          rfl
        · rcases le_or_lt v 1500 with h4 | h4
          · rw [if_neg (fun hc : 0 < v ∧ v ≤ 150 => by linarith [hc.2]),
              if_neg (fun hc : 150 < v ∧ v ≤ 900 => by linarith [hc.2]),
              if_neg (fun hc : 900 < v ∧ v ≤ 1200 => by linarith [hc.2]),
              if_pos ⟨h3, h4⟩, if_neg (not_le.mpr h0), if_neg (not_le.mpr h1),
              if_neg (not_le.mpr h2), if_neg (not_le.mpr h3), if_pos h4]
            rfl
          · rcases le_or_lt v 2000 with h5 | h5
            · rw [if_neg (fun hc : 0 < v ∧ v ≤ 150 => by linarith [hc.2]),
                if_neg (fun hc : 150 < v ∧ v ≤ 900 => by linarith [hc.2]),
                if_neg (fun hc : 900 < v ∧ v ≤ 1200 => by linarith [hc.2]),
                if_neg (fun hc : 1200 < v ∧ v ≤ 1500 => by linarith [hc.2]),
                if_pos ⟨h4, h5⟩, if_neg (not_le.mpr h0), if_neg (not_le.mpr h1),
                if_neg (not_le.mpr h2), if_neg (not_le.mpr h3), if_neg (not_le.mpr h4),
                if_pos h5]
              rfl
            · rcases le_or_lt v 3000 with h6 | h6
              · rw [if_neg (fun hc : 0 < v ∧ v ≤ 150 => by linarith [hc.2]),
                  if_neg (fun hc : 150 < v ∧ v ≤ 900 => by linarith [hc.2]),
                  if_neg (fun hc : 900 < v ∧ v ≤ 1200 => by linarith [hc.2]),
                  if_neg (fun hc : 1200 < v ∧ v ≤ 1500 => by linarith [hc.2]),
                  if_neg (fun hc : 1500 < v ∧ v ≤ 2000 => by linarith [hc.2]),
                  if_pos ⟨h5, h6⟩, if_neg (not_le.mpr h0), if_neg (not_le.mpr h1),
                  if_neg (not_le.mpr h2), if_neg (not_le.mpr h3), if_neg (not_le.mpr h4),
                  if_neg (not_le.mpr h5), if_pos h6]
                rfl
              · rw [if_neg (fun hc : 0 < v ∧ v ≤ 150 => by linarith [hc.2]),
                  if_neg (fun hc : 150 < v ∧ v ≤ 900 => by linarith [hc.2]),
                  if_neg (fun hc : 900 < v ∧ v ≤ 1200 => by linarith [hc.2]),
                  if_neg (fun hc : 1200 < v ∧ v ≤ 1500 => by linarith [hc.2]),
                  if_neg (fun hc : 1500 < v ∧ v ≤ 2000 => by linarith [hc.2]),
                  if_neg (fun hc : 2000 < v ∧ v ≤ 3000 => by linarith [hc.2]),
                  if_pos h6, if_neg (not_le.mpr h0), if_neg (not_le.mpr h1),
                  if_neg (not_le.mpr h2), if_neg (not_le.mpr h3), if_neg (not_le.mpr h4),
                  if_neg (not_le.mpr h5), if_neg (not_le.mpr h6)]
                rfl

theorem findSadzbaN1_spec (hmotnost : ℚ) :
    (findSadzba SADZBY_N1 (hmotnost / 1000)).getD 115 = sadzbaN1Spec hmotnost := by
  simp only [SADZBY_N1, findSadzba, vPasme, Bool.and_eq_true, Bool.and_true,
    decide_eq_true_eq, sadzbaN1Spec]
  generalize hmotnost / 1000 = m
  rcases le_or_lt m 0 with h0 | h0
  · rw [if_neg (fun hc : 0 < m ∧ m ≤ 2 => absurd hc.1 (not_lt.mpr h0)),
      if_neg (fun hc : 2 < m ∧ m ≤ 4 => by linarith [hc.1]),
      if_neg (fun hc : 4 < m ∧ m ≤ 6 => by linarith [hc.1]),
      if_neg (fun hc : 6 < m ∧ m ≤ 8 => by linarith [hc.1]),
      if_neg (fun hc : 8 < m ∧ m ≤ 10 => by linarith [hc.1]),
      if_neg (fun hc : 10 < m ∧ m ≤ 12 => by linarith [hc.1]),
      if_pos h0]
    rfl
  · rcases le_or_lt m 2 with h1 | h1
    · rw [if_pos ⟨h0, h1⟩, if_neg (not_le.mpr h0), if_pos h1]
      rfl
    · rcases le_or_lt m 4 with h2 | h2
      · rw [if_neg (fun hc : 0 < m ∧ m ≤ 2 => by linarith [hc.2]),
          if_pos ⟨h1, h2⟩, if_neg (not_le.mpr h0), if_neg (not_le.mpr h1), if_pos h2]
        rfl
      · rcases le_or_lt m 6 with h3 | h3
        · rw [if_neg (fun hc : 0 < m ∧ m ≤ 2 => by linarith [hc.2]),
            if_neg (fun hc : 2 < m ∧ m ≤ 4 => by linarith [hc.2]),
            if_pos ⟨h2, h3⟩, if_neg (not_le.mpr h0), if_neg (not_le.mpr h1),
            if_neg (not_le.mpr h2), if_pos h3]
          rfl
        · rcases le_or_lt m 8 with h4 | h4
          · rw [if_neg (fun hc : 0 < m ∧ m ≤ 2 => by linarith [hc.2]),
              if_neg (fun hc : 2 < m ∧ m ≤ 4 => by linarith [hc.2]),
              if_neg (fun hc : 4 < m ∧ m ≤ 6 => by linarith [hc.2]),
              if_pos ⟨h3, h4⟩, if_neg (not_le.mpr h0), if_neg (not_le.mpr h1),
              if_neg (not_le.mpr h2), if_neg (not_le.mpr h3), if_pos h4]
            rfl
          · rcases le_or_lt m 10 with h5 | h5
            · rw [if_neg (fun hc : 0 < m ∧ m ≤ 2 => by linarith [hc.2]),
                if_neg (fun hc : 2 < m ∧ m ≤ 4 => by linarith [hc.2]),
                if_neg (fun hc : 4 < m ∧ m ≤ 6 => by linarith [hc.2]),
                if_neg (fun hc : 6 < m ∧ m ≤ 8 => by linarith [hc.2]),
                if_pos ⟨h4, h5⟩, if_neg (not_le.mpr h0), if_neg (not_le.mpr h1),
                if_neg (not_le.mpr h2), if_neg (not_le.mpr h3), if_neg (not_le.mpr h4),
                if_pos h5]
              rfl
            · rcases le_or_lt m 12 with h6 | h6
              · rw [if_neg (fun hc : 0 < m ∧ m ≤ 2 => by linarith [hc.2]),
                  if_neg (fun hc : 2 < m ∧ m ≤ 4 => by linarith [hc.2]),
                  if_neg (fun hc : 4 < m ∧ m ≤ 6 => by linarith [hc.2]),
                  if_neg (fun hc : 6 < m ∧ m ≤ 8 => by linarith [hc.2]),
                  if_neg (fun hc : 8 < m ∧ m ≤ 10 => by linarith [hc.2]),
                  if_pos ⟨h5, h6⟩, if_neg (not_le.mpr h0), if_neg (not_le.mpr h1),
                  if_neg (not_le.mpr h2), if_neg (not_le.mpr h3), if_neg (not_le.mpr h4),
                  if_neg (not_le.mpr h5), if_pos h6]
                rfl
              · rw [if_neg (fun hc : 0 < m ∧ m ≤ 2 => by linarith [hc.2]),
                  if_neg (fun hc : 2 < m ∧ m ≤ 4 => by linarith [hc.2]),
                  if_neg (fun hc : 4 < m ∧ m ≤ 6 => by linarith [hc.2]),
                  if_neg (fun hc : 6 < m ∧ m ≤ 8 => by linarith [hc.2]),
                  if_neg (fun hc : 8 < m ∧ m ≤ 10 => by linarith [hc.2]),
                  if_neg (fun hc : 10 < m ∧ m ≤ 12 => by linarith [hc.2]),
                  if_neg (not_le.mpr h0), if_neg (not_le.mpr h1),
                  if_neg (not_le.mpr h2), if_neg (not_le.mpr h3), if_neg (not_le.mpr h4),
                  if_neg (not_le.mpr h5), if_neg (not_le.mpr h6)]
                rfl

theorem getKoefVeku2024_spec (vek rok : ℤ) (h0 : 0 ≤ vek) (hr : rok < 2025) :
    getKoefVeku vek rok = koef2024Spec vek := by
  rw [getKoefVeku]
  simp only [if_neg (by omega : ¬ 2025 ≤ rok), UPRAVA_2024, findKoef, vekVPasme,
    Bool.and_eq_true, Bool.and_true, decide_eq_true_eq, koef2024Spec]
  rcases lt_or_le vek 36 with h1 | h1
  · rw [if_pos ⟨h0, h1⟩, if_pos h1]
    rfl
  · rcases lt_or_le vek 72 with h2 | h2
    · rw [if_neg (fun hc : 0 ≤ vek ∧ vek < 36 => by omega),
        if_pos ⟨h1, h2⟩, if_neg (not_lt.mpr h1), if_pos h2]
      rfl
    · rcases lt_or_le vek 108 with h3 | h3
      · rw [if_neg (fun hc : 0 ≤ vek ∧ vek < 36 => by omega),
          if_neg (fun hc : 36 ≤ vek ∧ vek < 72 => by omega),
          if_pos ⟨h2, h3⟩, if_neg (not_lt.mpr h1), if_neg (not_lt.mpr h2), if_pos h3]
        rfl
      · rcases lt_or_le vek 144 with h4 | h4
        · rw [if_neg (fun hc : 0 ≤ vek ∧ vek < 36 => by omega),
            if_neg (fun hc : 36 ≤ vek ∧ vek < 72 => by omega),
            if_neg (fun hc : 72 ≤ vek ∧ vek < 108 => by omega),
            if_pos ⟨h3, h4⟩, if_neg (not_lt.mpr h1), if_neg (not_lt.mpr h2),
            if_neg (not_lt.mpr h3), if_pos h4]
          rfl
        · rcases lt_or_le vek 156 with h5 | h5
          · rw [if_neg (fun hc : 0 ≤ vek ∧ vek < 36 => by omega),
              if_neg (fun hc : 36 ≤ vek ∧ vek < 72 => by omega),
              if_neg (fun hc : 72 ≤ vek ∧ vek < 108 => by omega),
              if_neg (fun hc : 108 ≤ vek ∧ vek < 144 => by omega),
              if_pos ⟨h4, h5⟩, if_neg (not_lt.mpr h1), if_neg (not_lt.mpr h2),
              if_neg (not_lt.mpr h3), if_neg (not_lt.mpr h4), if_pos h5]
            rfl
          · rw [if_neg (fun hc : 0 ≤ vek ∧ vek < 36 => by omega),
              if_neg (fun hc : 36 ≤ vek ∧ vek < 72 => by omega),
              if_neg (fun hc : 72 ≤ vek ∧ vek < 108 => by omega),
              if_neg (fun hc : 108 ≤ vek ∧ vek < 144 => by omega),
              if_neg (fun hc : 144 ≤ vek ∧ vek < 156 => by omega),
              if_pos h5, if_neg (not_lt.mpr h1), if_neg (not_lt.mpr h2),
              if_neg (not_lt.mpr h3), if_neg (not_lt.mpr h4), if_neg (not_lt.mpr h5)]
            rfl

theorem getKoefVeku2025_spec (vek rok : ℤ) (h0 : 0 ≤ vek) (hr : 2025 ≤ rok) :
    getKoefVeku vek rok = koef2025Spec vek := by
  rw [getKoefVeku]
  simp only [if_pos hr, UPRAVA_2025, findKoef, vekVPasme,
    Bool.and_eq_true, Bool.and_true, decide_eq_true_eq, koef2025Spec]
  rcases lt_or_le vek 36 with h1 | h1
  · rw [if_pos ⟨h0, h1⟩, if_pos h1]
    rfl
  · rcases lt_or_le vek 72 with h2 | h2
    · rw [if_neg (fun hc : 0 ≤ vek ∧ vek < 36 => by omega),
        if_pos ⟨h1, h2⟩, if_neg (not_lt.mpr h1), if_pos h2]
      rfl
    · rcases lt_or_le vek 108 with h3 | h3
      · rw [if_neg (fun hc : 0 ≤ vek ∧ vek < 36 => by omega),
          if_neg (fun hc : 36 ≤ vek ∧ vek < 72 => by omega),
          if_pos ⟨h2, h3⟩, if_neg (not_lt.mpr h1), if_neg (not_lt.mpr h2), if_pos h3]
        rfl
      · rcases lt_or_le vek 144 with h4 | h4
        · rw [if_neg (fun hc : 0 ≤ vek ∧ vek < 36 => by omega),
            if_neg (fun hc : 36 ≤ vek ∧ vek < 72 => by omega),
            if_neg (fun hc : 72 ≤ vek ∧ vek < 108 => by omega),
            if_pos ⟨h3, h4⟩, if_neg (not_lt.mpr h1), if_neg (not_lt.mpr h2),
            if_neg (not_lt.mpr h3), if_pos h4]
          rfl
        · rcases lt_or_le vek 180 with h5 | h5
          · rw [if_neg (fun hc : 0 ≤ vek ∧ vek < 36 => by omega),
              if_neg (fun hc : 36 ≤ vek ∧ vek < 72 => by omega),
              if_neg (fun hc : 72 ≤ vek ∧ vek < 108 => by omega),
              if_neg (fun hc : 108 ≤ vek ∧ vek < 144 => by omega),
              if_pos ⟨h4, h5⟩, if_neg (not_lt.mpr h1), if_neg (not_lt.mpr h2),
              if_neg (not_lt.mpr h3), if_neg (not_lt.mpr h4), if_pos h5]
            rfl
          · rw [if_neg (fun hc : 0 ≤ vek ∧ vek < 36 => by omega),
              if_neg (fun hc : 36 ≤ vek ∧ vek < 72 => by omega),
              if_neg (fun hc : 72 ≤ vek ∧ vek < 108 => by omega),
              if_neg (fun hc : 108 ≤ vek ∧ vek < 144 => by omega),
              if_neg (fun hc : 144 ≤ vek ∧ vek < 180 => by omega),
              if_pos h5, if_neg (not_lt.mpr h1), if_neg (not_lt.mpr h2),
              if_neg (not_lt.mpr h3), if_neg (not_lt.mpr h4), if_neg (not_lt.mpr h5)]
            rfl

/-- C3: the base-rate resolver obeys the upper-bound-inclusive,
lower-bound-exclusive bracket rule at every table boundary: for `M1`/`L` it
agrees with the spec's `(od, do]` cascade everywhere — in particular
displacement 900 resolves to 62 and 900.01 to 80 — and for every category
that is neither `M1`/`L` nor an `O*` category it agrees with the spec's mass
cascade over metric tons — in particular 2 t (2000 kg) resolves to 115,
2.01 t (2010 kg) to 148, and every mass above the last bound falls back
to 115. -/
theorem C3_sadzba_bracket_rule :
    (∀ kat objem hmotnost, (kat = "M1" ∨ kat = "L") →
      getZakladnaSadzba kat objem hmotnost = sadzbaM1Spec objem)
    ∧ (∀ kat objem hmotnost, kat ≠ "M1" → kat ≠ "L" → zacinaNaO kat = false →
        getZakladnaSadzba kat objem hmotnost = sadzbaN1Spec hmotnost)
    ∧ sadzbaM1Spec 900 = 62 ∧ sadzbaM1Spec (900.01 : ℚ) = 80
    ∧ sadzbaN1Spec 2000 = 115 ∧ sadzbaN1Spec 2010 = 148
    ∧ (∀ hmotnost : ℚ, 12000 < hmotnost → sadzbaN1Spec hmotnost = 115) := by
  refine ⟨?_, ?_, by norm_num [sadzbaM1Spec], by norm_num [sadzbaM1Spec],
    by norm_num [sadzbaN1Spec], by norm_num [sadzbaN1Spec], ?_⟩
  · intro kat objem hmotnost hk
    rw [getZakladnaSadzba, if_pos hk, findSadzbaM1_spec]
  · intro kat objem hmotnost h1 h2 h3
    rw [getZakladnaSadzba, if_neg (by simp [h1, h2]), if_neg (by simp [h3]),
      findSadzbaN1_spec]
  · intro hmotnost h
    rw [sadzbaN1Spec]
    have hm : (12 : ℚ) < hmotnost / 1000 := by linarith
    rw [if_neg (by linarith), if_neg (by linarith), if_neg (by linarith),
      if_neg (by linarith), if_neg (by linarith), if_neg (by linarith),
      if_neg (by linarith)]

/-- C3 witness: the boundary instances of `C3_sadzba_bracket_rule` at
concrete inputs — 900 cm³ → 62, 900.01 cm³ → 80 for `M1`; 2000 kg → 115,
2010 kg → 148, 13000 kg → 115 for `N1`. -/
theorem C3_sadzba_bracket_rule_witness :
    getZakladnaSadzba "M1" 900 0 = 62
    ∧ getZakladnaSadzba "M1" (900.01 : ℚ) 0 = 80
    ∧ getZakladnaSadzba "N1" 0 2000 = 115
    ∧ getZakladnaSadzba "N1" 0 2010 = 148
    ∧ getZakladnaSadzba "N1" 0 13000 = 115 := by
  have hM := C3_sadzba_bracket_rule.1
  have hN := C3_sadzba_bracket_rule.2.1
  refine ⟨?_, ?_, ?_, ?_, ?_⟩
  · rw [hM "M1" 900 0 (Or.inl rfl)]
    exact C3_sadzba_bracket_rule.2.2.1
  · rw [hM "M1" (900.01 : ℚ) 0 (Or.inl rfl)]
    exact C3_sadzba_bracket_rule.2.2.2.1
  · rw [hN "N1" 0 2000 (by decide) (by decide) (by decide)]
    exact C3_sadzba_bracket_rule.2.2.2.2.1
  · rw [hN "N1" 0 2010 (by decide) (by decide) (by decide)]
    exact C3_sadzba_bracket_rule.2.2.2.2.2.1
  · rw [hN "N1" 0 13000 (by decide) (by decide) (by decide)]
    exact C3_sadzba_bracket_rule.2.2.2.2.2.2 13000 (by norm_num)

/-- C4: the age coefficient is looked up with the half-open-below `[od, do)`
rule in the schedule selected by the tax year — the pre-cutoff table for tax
years before 2025 and the cutoff-and-later table from 2025 on — so an age of
exactly 36 months in a pre-2025 tax year yields 0.80 (not 0.75), and ages at
or beyond the highest bound use the last tier's coefficient. -/
theorem C4_koef_schedule :
    (∀ vek rok : ℤ, 0 ≤ vek → rok < 2025 → getKoefVeku vek rok = koef2024Spec vek)
    ∧ (∀ vek rok : ℤ, 0 ≤ vek → 2025 ≤ rok → getKoefVeku vek rok = koef2025Spec vek)
    ∧ (∀ rok : ℤ, rok < 2025 → getKoefVeku 36 rok = 0.80)
    ∧ koef2024Spec 36 = 0.80 ∧ (0.80 : ℚ) ≠ 0.75
    ∧ (∀ vek rok : ℤ, 156 ≤ vek → rok < 2025 → getKoefVeku vek rok = 1.20)
    ∧ (∀ vek rok : ℤ, 180 ≤ vek → 2025 ≤ rok → getKoefVeku vek rok = 1.50) := by
  refine ⟨getKoefVeku2024_spec, getKoefVeku2025_spec, ?_,
    by norm_num [koef2024Spec], by norm_num, ?_, ?_⟩
  · intro rok hr
    rw [getKoefVeku2024_spec 36 rok (by omega) hr]
    norm_num [koef2024Spec]
  · intro vek rok hv hr
    rw [getKoefVeku2024_spec vek rok (by omega) hr, koef2024Spec]
    rw [if_neg (by omega), if_neg (by omega), if_neg (by omega),
      if_neg (by omega), if_neg (by omega)]
  · intro vek rok hv hr
    rw [getKoefVeku2025_spec vek rok (by omega) hr, koef2025Spec]
    rw [if_neg (by omega), if_neg (by omega), if_neg (by omega),
      if_neg (by omega), if_neg (by omega)]

/-- C4 witness: concrete instances discharging the hypotheses of
`C4_koef_schedule` — age 36 in tax year 2024 yields 0.80, age 200 in tax
year 2024 yields the pre-cutoff last tier 1.20, and age 200 in tax year 2025
yields the later schedule's last tier 1.50. -/
theorem C4_koef_schedule_witness :
    getKoefVeku 36 2024 = 0.80
    ∧ getKoefVeku 200 2024 = 1.20
    ∧ getKoefVeku 200 2025 = 1.50 :=
  ⟨C4_koef_schedule.2.2.1 2024 (by norm_num),
   C4_koef_schedule.2.2.2.2.2.1 200 2024 (by norm_num) (by norm_num),
   C4_koef_schedule.2.2.2.2.2.2 200 2025 (by norm_num) (by norm_num)⟩

/-- C9: for a vehicle of category `M1` or `L` whose displacement is 0 (the
value an unset input field parses to) — or any non-positive displacement,
which matches no `(od, do]` bracket — the resolved base rate is the fallback
218, not the lowest bracket's 50. -/
theorem C9_nulovy_objem_fallback :
    (∀ (kat : String) (objem hmotnost : ℚ), (kat = "M1" ∨ kat = "L") → objem ≤ 0 →
      getZakladnaSadzba kat objem hmotnost = 218)
    ∧ (∀ hmotnost : ℚ, getZakladnaSadzba "M1" 0 hmotnost = 218)
    ∧ (∀ hmotnost : ℚ, getZakladnaSadzba "L" 0 hmotnost = 218) := by
  have h : ∀ (kat : String) (objem hmotnost : ℚ), (kat = "M1" ∨ kat = "L") → objem ≤ 0 →
      getZakladnaSadzba kat objem hmotnost = 218 := by
    intro kat objem hmotnost hk h0
    rw [getZakladnaSadzba, if_pos hk, findSadzbaM1_spec, sadzbaM1Spec, if_pos h0]
  exact ⟨h, fun hmotnost => h "M1" 0 hmotnost (Or.inl rfl) le_rfl,
    fun hmotnost => h "L" 0 hmotnost (Or.inr rfl) le_rfl⟩

/-- C9 witness: the fallback at displacement 0 and at a negative
displacement, for both volume-based categories. -/
theorem C9_nulovy_objem_fallback_witness :
    getZakladnaSadzba "M1" 0 0 = 218 ∧ getZakladnaSadzba "L" (-5) 0 = 218 :=
  ⟨C9_nulovy_objem_fallback.2.1 0,
   C9_nulovy_objem_fallback.1 "L" (-5) 0 (Or.inr rfl) (by norm_num)⟩

/-- C1: for every vehicle and tax year, the tax computed by the recompute
pass equals `adjustedRate / 12 × monthsHeld`, where the adjusted rate is the
base rate times the age coefficient exactly when the category is not an `O*`
category and the age is positive, halved when the eco (hybrid-or-gas) flag
is set and halved again, independently, when the combined-transport flag is
set; with both flags set the adjusted rate is the pre-discount rate × 0.25. -/
theorem C1_vypocet_dane (v : Vozidlo) (rok : ℤ) :
    (prepocitatVozidlo v rok).dan = adjustedRateSpec v rok / 12 * (v.mesiace : ℚ)
    ∧ (prepocitatVozidlo v rok).sadzba = adjustedRateSpec v rok
    ∧ ((v.hybrid ∨ v.plyn) → v.kombi →
        adjustedRateSpec v rok = sadzbaPredZlavami v rok * 0.25) := by
  refine ⟨?_, ?_, ?_⟩
  · show (if v.kombi then _ else _) / 12 * _ = _
    rw [adjustedRateSpec, sadzbaPredZlavami]
    cases hh : v.hybrid <;> cases hp : v.plyn <;> cases hk : v.kombi <;>
      simp [hh, hp, hk]
  · show (if v.kombi then _ else _) = _
    rw [adjustedRateSpec, sadzbaPredZlavami]
    cases hh : v.hybrid <;> cases hp : v.plyn <;> cases hk : v.kombi <;>
      simp [hh, hp, hk]
  · intro he hk
    rw [adjustedRateSpec]
    rcases he with he | he <;> rw [he] <;> rw [hk] <;> simp <;> ring

/-- C1 witness: `C1_vypocet_dane` applied to a concrete vehicle with both
the hybrid and the combined-transport flags set, discharging the implication
hypotheses of the stacking conjunct. -/
def vozidloC1 : Vozidlo :=
  ⟨"BA111AA", "M1", "1.1.2009", "1.1.2024", 1400, 0, 12, true, false, true,
   0, 0, 0, none⟩

theorem C1_vypocet_dane_witness :
    (prepocitatVozidlo vozidloC1 2024).sadzba = adjustedRateSpec vozidloC1 2024
    ∧ adjustedRateSpec vozidloC1 2024 = sadzbaPredZlavami vozidloC1 2024 * 0.25 :=
  ⟨(C1_vypocet_dane vozidloC1 2024).2.1,
   (C1_vypocet_dane vozidloC1 2024).2.2 (Or.inl rfl) rfl⟩

/-- C10: the eco halving is applied at most once — with all other inputs
equal, the adjusted rate and the tax computed with both the hybrid flag and
the gas flag set equal those computed with only one of the two flags set. -/
theorem C10_eko_zlava_raz (v : Vozidlo) (rok : ℤ) :
    ((prepocitatVozidlo { v with hybrid := true, plyn := true } rok).sadzba =
      (prepocitatVozidlo { v with hybrid := true, plyn := false } rok).sadzba)
    ∧ ((prepocitatVozidlo { v with hybrid := true, plyn := true } rok).dan =
      (prepocitatVozidlo { v with hybrid := true, plyn := false } rok).dan)
    ∧ ((prepocitatVozidlo { v with hybrid := true, plyn := true } rok).sadzba =
      (prepocitatVozidlo { v with hybrid := false, plyn := true } rok).sadzba)
    ∧ ((prepocitatVozidlo { v with hybrid := true, plyn := true } rok).dan =
      (prepocitatVozidlo { v with hybrid := false, plyn := true } rok).dan) :=
  ⟨rfl, rfl, rfl, rfl⟩

/-- C7: `prepocitatVsetky` is idempotent — recomputing a fleet a second time
with unchanged vehicle input fields and unchanged tax year leaves every
record, including all derived fields, identical. -/
theorem C7_prepocet_idempotentny (vozidla : List Vozidlo) (rok : ℤ) :
    prepocitatVsetky (prepocitatVsetky vozidla rok) rok =
      prepocitatVsetky vozidla rok := by
  unfold prepocitatVsetky
  rw [List.map_map]
  rfl

/-- C2: an export call with an empty tax-id or an empty vehicle list fails
with a `ValidationError` — the empty-tax-id guard fires first, the
empty-fleet guard second — and in either case no document value is ever
produced. -/
theorem C2_export_validacia (sp : Spolocnost) (vozidla : List Vozidlo) (rok : ℤ) :
    (sp.dic = "" → exportXML sp vozidla rok = .error .chybaDic)
    ∧ (sp.dic ≠ "" → vozidla = [] → exportXML sp vozidla rok = .error .chybaVozidla)
    ∧ ((sp.dic = "" ∨ vozidla = []) → ∀ fn xml,
        exportXML sp vozidla rok ≠ .ok (fn, xml)) := by
  refine ⟨?_, ?_, ?_⟩
  · intro h
    rw [exportXML, if_pos h]
  · intro h1 h2
    rw [exportXML, if_neg h1, h2]
    rfl
  · rintro (h | h) fn xml
    · rw [exportXML, if_pos h]
      exact fun hc => Except.noConfusion hc
    · rw [exportXML, h]
      by_cases hd : sp.dic = ""
      · rw [if_pos hd]
        exact fun hc => Except.noConfusion hc
      · rw [if_neg hd]
        exact fun hc => Except.noConfusion hc

/-- C2 witness: `C2_export_validacia` at concrete inputs — an empty tax-id
and, separately, an empty fleet, each yielding the corresponding
`ValidationError` and no document. -/
def spolocnostC2 : Spolocnost := ⟨"", "Firma", "Ulica", "1", "01001", "Obec"⟩

def spolocnostC2b : Spolocnost := ⟨"2020304050", "Firma", "Ulica", "1", "01001", "Obec"⟩

theorem C2_export_validacia_witness :
    exportXML spolocnostC2 [] 2024 = .error .chybaDic
    ∧ exportXML spolocnostC2b [] 2024 = .error .chybaVozidla :=
  ⟨(C2_export_validacia spolocnostC2 [] 2024).1 rfl,
   (C2_export_validacia spolocnostC2b [] 2024).2.1 (by decide) rfl⟩

/-- C8: for every fleet and company passing the export guards, the exported
declaration body carries exactly the three legally positioned totals — the
vehicle count under `<r35>`, and the
fleet's total tax (the `toFixed(2)` rendering of the sum of the per-vehicle
`dan` fields) appearing as the identical string under `<r36>` and under the
two further fixed tags `<r38>` and `<r40>`. -/
theorem C8_export_sucty (sp : Spolocnost) (vozidla : List Vozidlo) (rok : ℤ)
    (hd : sp.dic ≠ "") (hv : vozidla ≠ []) :
    exportXML sp vozidla rok =
      .ok ("dmv_" ++ sp.dic ++ "_" ++ toString rok ++ ".xml",
        exportHlavicka sp rok ++ "\n" ++
        ("<telo>\n<r35>" ++ toString vozidla.length ++ "</r35>\n<r36>" ++
          toFixed2 (List.foldl (fun s v => s + v.dan) 0 vozidla) ++
          "</r36>\n<r38>" ++
          toFixed2 (List.foldl (fun s v => s + v.dan) 0 vozidla) ++
          "</r38>\n<r40>" ++
          toFixed2 (List.foldl (fun s v => s + v.dan) 0 vozidla) ++
          "</r40>\n</telo>") ++ "\n</dokument>") := by
  rw [exportXML, if_neg hd,
    if_neg (by simpa [List.length_eq_zero] using hv)]
  rfl

/-- C8 witness: `C8_export_sucty` at a one-vehicle fleet with tax 115 — the
count 1 appears under `<r35>` and the identical total `115.00` under
`<r36>`, `<r38>` and `<r40>`. -/
def spolocnostC8 : Spolocnost := ⟨"1122334455", "Firma", "Ulica", "2", "01001", "Obec"⟩

def vozidloC8 : Vozidlo :=
  ⟨"ZA111BB", "M1", "", "1.1.2024", 1400, 0, 12, false, false, false,
   115, 115, 115, some 0⟩

theorem C8_export_sucty_witness :
    exportXML spolocnostC8 [vozidloC8] 2024 =
      .ok ("dmv_1122334455_2024.xml",
        exportHlavicka spolocnostC8 2024 ++ "\n" ++
        ("<telo>\n<r35>" ++ "1" ++ "</r35>\n<r36>" ++ toFixed2 115 ++
          "</r36>\n<r38>" ++ toFixed2 115 ++ "</r38>\n<r40>" ++ toFixed2 115 ++
          "</r40>\n</telo>") ++ "\n</dokument>") := by
  rw [C8_export_sucty spolocnostC8 [vozidloC8] 2024 (by decide)
      (List.cons_ne_nil _ _),
    show List.foldl (fun s v => s + v.dan) (0 : ℚ) [vozidloC8] = 115 by
      simp [vozidloC8],
    show toString ([vozidloC8].length) = "1" by decide,
    show ("dmv_" ++ spolocnostC8.dic ++ "_" ++ toString (2024 : ℤ) ++ ".xml") =
        "dmv_1122334455_2024.xml" by decide]

/-- Company and vehicle with XML-reserved characters in the free-text
fields, used to exhibit the exporter's raw interpolation. -/
def spolocnostC5 : Spolocnost :=
  ⟨"9988776655", "A&B", "Ulica <17>", "3", "01001", "Horná & Dolná"⟩

def vozidloC5 : Vozidlo :=
  ⟨"KE222CC", "M1", "", "1.1.2024", 1400, 0, 12, false, false, false,
   115, 115, 115, some 0⟩

set_option maxRecDepth 100000 in
/-- C5: evaluation of the exporter at free-text fields holding the XML
reserved characters `&` and `<` — the company name, street and municipality
are interpolated verbatim into the document (the raw fragments occur in the
output, and no `&amp;`/`&lt;` entity ever does), so no escaping of the
output format's reserved characters takes place, contrary to the claim. -/
theorem C5_chybajuci_escaping :
    obsahuje "<riadok>A&B</riadok>".data (exportHlavicka spolocnostC5 2024).data = true
    ∧ obsahuje "<ulica>Ulica <17></ulica>".data (exportHlavicka spolocnostC5 2024).data = true
    ∧ obsahuje "<obec>Horná & Dolná</obec>".data (exportHlavicka spolocnostC5 2024).data = true
    ∧ obsahuje "&amp;".data (exportHlavicka spolocnostC5 2024).data = false
    ∧ obsahuje "&lt;".data (exportHlavicka spolocnostC5 2024).data = false
    ∧ obsahuje "<riadok>A&B</riadok>".data
        (exOutput (exportXML spolocnostC5 [vozidloC5] 2024)).data = true := by
  refine ⟨by decide, by decide, by decide, by decide, by decide, by decide⟩

/-- Truncation toward zero is the identity on integer casts. -/
theorem jsToInteger_intCast (n : ℤ) : jsToInteger ((n : ℚ)) = n := by
  rw [jsToInteger]
  split_ifs with h
  · exact_mod_cast Int.floor_intCast n
  · rw [show (-(n : ℚ)) = ((-n : ℤ) : ℚ) by push_cast; ring, Int.floor_intCast]
    ring

/-- C6 counterexample: the three-part but non-numeric date string `"x.y.z"`
is malformed, yet the computed age is the JS `NaN` (`Math.max(0, NaN)`),
not 0 — refuting the claim that every malformed date string yields age 0. -/
theorem C6_vek_counterexample :
    vypocitajVek "x.y.z" 2024 = none ∧ vypocitajVek "x.y.z" 2024 ≠ some 0 := by
  refine ⟨by decide, by decide⟩

/-- A day already inside the month is left where it is by the
normalisation loop. -/
theorem normDen_vRozsahu (f : ℕ) (y mo d : ℤ) (h1 : 1 ≤ d)
    (h2 : d ≤ dniVMesiaci y mo) : normDen (f + 1) y mo d = (y, mo) := by
  simp only [normDen]
  rw [if_neg (by omega), if_neg (not_lt.mpr h2)]

/-- C6 (amended): a missing (empty) date string yields age 0, and so does a
string splitting on `'.'` into other than three components; a string whose
three components are numeric and denote an actual calendar date — month
1..12 and day from 1 up to the month's length, with the JS two-digit-year
rule applied and both years within the JS time range (±250000) — yields
the month difference between December 31 of the tax year and the
registration date, `(rok − y) × 12 + (11 − (m − 1))`, clamped to a minimum
of 0; but a string with three components at least one of which is
non-numeric — in any position — yields the JS `NaN` (modelled `none`),
not 0. -/
theorem C6_vek_vypocet (rok : ℤ) (s : String) (a b c : List Char) (d m y : ℤ) :
    (vypocitajVek "" rok = some 0)
    ∧ (s ≠ "" → (splitNaBodky s.data).length ≠ 3 → vypocitajVek s rok = some 0)
    ∧ (s ≠ "" → splitNaBodky s.data = [a, b, c] →
        jsToNumber a = some ((d : ℚ)) → jsToNumber b = some ((m : ℚ)) →
        jsToNumber c = some ((y : ℚ)) →
        1 ≤ m → m ≤ 12 → 1 ≤ d → d ≤ dniVMesiaci (jsYearAdjust y) (m - 1) →
        -250000 ≤ y → y ≤ 250000 → -250000 ≤ rok → rok ≤ 250000 →
        vypocitajVek s rok =
          some (max 0 ((jsYearAdjust rok - jsYearAdjust y) * 12 + (11 - (m - 1)))))
    ∧ (s ≠ "" → splitNaBodky s.data = [a, b, c] →
        (jsToNumber a = none ∨ jsToNumber b = none ∨ jsToNumber c = none) →
        vypocitajVek s rok = none) := by
  refine ⟨by rw [vypocitajVek, if_pos rfl], ?_, ?_, ?_⟩
  · intro hs hl
    rw [vypocitajVek, if_neg hs]
    rcases hsp : splitNaBodky s.data with _ | ⟨x1, _ | ⟨x2, _ | ⟨x3, _ | rest⟩⟩⟩
    · rfl
    · rfl
    · rfl
    · rw [hsp] at hl
      simp at hl
    · rfl
  · intro hs hsplit ha hb hc hm1 hm12 hd1 hd2 hy1 hy2 hr1 hr2
    rw [vypocitajVek, if_neg hs, hsplit]
    simp only [vypocitajVekParts, ha, hb, hc]
    have hm' : jsToInteger ((m : ℚ) - 1) = m - 1 := by
      rw [show ((m : ℚ) - 1) = ((m - 1 : ℤ) : ℚ) by push_cast; ring]
      exact jsToInteger_intCast (m - 1)
    have h11 : jsToInteger ((11 : ℚ)) = 11 := by
      rw [show ((11 : ℚ)) = (((11 : ℤ) : ℚ)) by norm_num]
      exact jsToInteger_intCast 11
    have h31 : jsToInteger ((31 : ℚ)) = 31 := by
      rw [show ((31 : ℚ)) = (((31 : ℤ) : ℚ)) by norm_num]
      exact jsToInteger_intCast 31
    simp only [jsDateYMD, jsToInteger_intCast, hm', h11, h31]
    rw [show (jsYearAdjust y * 12 + (m - 1)) / 12 = jsYearAdjust y by omega,
      show (jsYearAdjust y * 12 + (m - 1)) % 12 = m - 1 by omega,
      show (jsYearAdjust rok * 12 + 11) / 12 = jsYearAdjust rok by omega,
      show (jsYearAdjust rok * 12 + 11) % 12 = 11 by omega,
      show d.natAbs + 24 = (d.natAbs + 23) + 1 from rfl,
      show (31 : ℤ).natAbs + 24 = 54 + 1 from rfl,
      normDen_vRozsahu (d.natAbs + 23) (jsYearAdjust y) (m - 1) d hd1 hd2,
      normDen_vRozsahu 54 (jsYearAdjust rok) 11 31 (by decide) (by
        rw [show dniVMesiaci (jsYearAdjust rok) 11 = 31 from by
          rw [dniVMesiaci, if_neg (by decide), if_neg (by decide)]])]
  · intro hs hsplit hnan
    rw [vypocitajVek, if_neg hs, hsplit]
    rcases hnan with ha | hb | hc
    · simp only [vypocitajVekParts, ha]
    · rcases hA : jsToNumber a with _ | dq
      · simp only [vypocitajVekParts, hA]
      · simp only [vypocitajVekParts, hA, hb]
    · rcases hA : jsToNumber a with _ | dq
      · simp only [vypocitajVekParts, hA]
      · rcases hB : jsToNumber b with _ | mq
        · simp only [vypocitajVekParts, hA, hB]
        · simp only [vypocitajVekParts, hA, hB, hc]

/-- C6 witness: `C6_vek_vypocet` applied at concrete dates, discharging
every hypothesis — the plain date `"15.6.2020"` and the month-end date
`"31.12.2020"` follow the formula, white space and an explicit sign are
accepted as JS does (`" 1.6.2020"`, `"+7.6.2020"`), and a non-numeric
component in the month or year position yields `NaN`. -/
theorem C6_vek_vypocet_witness :
    vypocitajVek "15.6.2020" 2024 = some 54
    ∧ vypocitajVek "31.12.2020" 2024 = some 48
    ∧ vypocitajVek " 1.6.2020" 2024 = some 54
    ∧ vypocitajVek "+7.6.2020" 2024 = some 54
    ∧ vypocitajVek "15.x.2020" 2024 = none
    ∧ vypocitajVek "15.6.z" 2024 = none :=
  ⟨(C6_vek_vypocet 2024 "15.6.2020" "15".data "6".data "2020".data 15 6 2020).2.2.1
      (by decide) (by decide) (by decide) (by decide) (by decide) (by decide)
      (by decide) (by decide) (by decide) (by decide) (by decide) (by decide)
      (by decide),
   (C6_vek_vypocet 2024 "31.12.2020" "31".data "12".data "2020".data
        31 12 2020).2.2.1
      (by decide) (by decide) (by decide) (by decide) (by decide) (by decide)
      (by decide) (by decide) (by decide) (by decide) (by decide) (by decide)
      (by decide),
   (C6_vek_vypocet 2024 " 1.6.2020" " 1".data "6".data "2020".data 1 6 2020).2.2.1
      (by decide) (by decide) (by decide) (by decide) (by decide) (by decide)
      (by decide) (by decide) (by decide) (by decide) (by decide) (by decide)
      (by decide),
   (C6_vek_vypocet 2024 "+7.6.2020" "+7".data "6".data "2020".data 7 6 2020).2.2.1
      (by decide) (by decide) (by decide) (by decide) (by decide) (by decide)
      (by decide) (by decide) (by decide) (by decide) (by decide) (by decide)
      (by decide),
   (C6_vek_vypocet 2024 "15.x.2020" "15".data "x".data "2020".data 0 0 0).2.2.2
      (by decide) (by decide) (Or.inr (Or.inl (by decide))),
   (C6_vek_vypocet 2024 "15.6.z" "15".data "6".data "z".data 0 0 0).2.2.2
      (by decide) (by decide) (Or.inr (Or.inr (by decide)))⟩
